import Mathlib

/-!
Verification of the rekallhalo narrative-session engine.

Strings from the TypeScript source are modelled as `List Char` (`Str`);
JavaScript truthiness on optional strings, `-1`-based index results, and
array index arithmetic are modelled explicitly.  Each definition below is a
direct translation of a function in the repository source
(`src/services/geminiService.ts`, `src/unnamed/part_000`).
-/

namespace Rekallhalo

/-- Strings of the TypeScript source, as lists of characters. -/
abbrev Str := List Char

/-- JavaScript truthiness of an optional string field: `undefined`/`null` and
the empty string are falsy, every other string is truthy. -/
def truthy : Option Str → Bool
  | none => false
  | some s => !s.isEmpty

/-- JavaScript `hay.includes(needle)` helper: does `needle` occur at the head? -/
def startsAt : Str → Str → Bool
  | _, [] => true
  | [], _ :: _ => false
  | c :: cs, d :: ds => c == d && startsAt cs ds

/-- JavaScript `hay.includes(needle)`: contiguous substring containment. -/
def jsIncludes (hay needle : Str) : Bool :=
  startsAt hay needle ||
    match hay with
    | [] => false
    | _ :: t => jsIncludes t needle

/-- The whitespace class of JavaScript `\s` (and of `String.prototype.trim`). -/
def jsWhitespace (c : Char) : Bool :=
  c.toNat == 9 || c.toNat == 10 || c.toNat == 11 || c.toNat == 12 ||
  c.toNat == 13 || c.toNat == 32 || c.toNat == 0xA0 || c.toNat == 0x1680 ||
  (0x2000 ≤ c.toNat && c.toNat ≤ 0x200A) || c.toNat == 0x2028 ||
  c.toNat == 0x2029 || c.toNat == 0x202F || c.toNat == 0x205F ||
  c.toNat == 0x3000 || c.toNat == 0xFEFF

/-- JavaScript `s.trim()`. -/
def jsTrim (l : Str) : Str :=
  ((l.dropWhile jsWhitespace).reverse.dropWhile jsWhitespace).reverse

/-- Case-insensitive prefix test (the `i` flag of the fence regex). -/
def startsAtCI : Str → Str → Bool
  | _, [] => true
  | [], _ :: _ => false
  | c :: cs, d :: ds => c.toLower == d.toLower && startsAtCI cs ds

/-- The backquote character, written by code point. -/
def backquote : Char := Char.ofNat 0x60

/-- The opening-brace character, written by code point. -/
def lbrace : Char := Char.ofNat 0x7B

/-- The closing-brace character, written by code point. -/
def rbrace : Char := Char.ofNat 0x7D

/-- The pattern of the first regex alternative, a fenced-code opener
followed by the letters `json` (seven characters). -/
def fenceJsonPat : Str := [backquote, backquote, backquote, 'j', 's', 'o', 'n']

/-- The pattern of the second regex alternative, a bare fence. -/
def fencePat : Str := [backquote, backquote, backquote]

/-- Fuelled scanner for the global replace
`text.replace(/styled-fence-json\s*|fence/gi, '')` of `cleanJson`: at each
position the longer alternative is tried first, exactly as the JavaScript
regex engine does.  The fuel starts at the length of the list, which is
enough because every step consumes at least one character. -/
def stripFencesGo : Nat → Str → Str
  | 0, l => l
  | _ + 1, [] => []
  | fuel + 1, c :: rest =>
    if startsAtCI (c :: rest) fenceJsonPat then
      stripFencesGo fuel (((c :: rest).drop 7).dropWhile jsWhitespace)
    else if startsAtCI (c :: rest) fencePat then
      stripFencesGo fuel ((c :: rest).drop 3)
    else
      c :: stripFencesGo fuel rest

/-- The fence-stripping replace of `cleanJson`. -/
def stripFences (l : Str) : Str := stripFencesGo l.length l

/-- JavaScript `s.indexOf(c)`: index of the first occurrence, `-1` if absent. -/
def jsIndexOf (l : Str) (c : Char) : Int :=
  match l.findIdx? (fun d => d == c) with
  | some i => (i : Int)
  | none => -1

/-- JavaScript `s.lastIndexOf(c)`: index of the last occurrence, `-1` if absent. -/
def jsLastIndexOf (l : Str) (c : Char) : Int :=
  match l.reverse.findIdx? (fun d => d == c) with
  | some i => (l.length : Int) - 1 - (i : Int)
  | none => -1

/-- The control characters removed by `cleanJson`:
ranges `0x00`–`0x09`, `0x0B`–`0x1F` and `0x7F`. -/
def isStrippedControl (c : Char) : Bool :=
  c.toNat ≤ 9 || (11 ≤ c.toNat && c.toNat ≤ 31) || c.toNat == 127

/-- The canonical empty object string of `cleanJson`. -/
def emptyObjectJson : Str := [lbrace, rbrace]

/-- The canonical empty array string of `cleanJson`. -/
def emptyArrayJson : Str := ['[', ']']

/-- The `startIndex`/`endIndex`/`isArray` assignment chain of `cleanJson`,
computed on the fence-stripped, trimmed text. -/
def bracketSpan (cleaned : Str) : Int × Int × Bool :=
  let firstBrace := jsIndexOf cleaned lbrace
  let firstBracket := jsIndexOf cleaned '['
  if firstBrace ≠ -1 ∧ (firstBracket = -1 ∨ firstBrace < firstBracket) then
    (firstBrace, jsLastIndexOf cleaned rbrace, false)
  else if firstBracket ≠ -1 then
    (firstBracket, jsLastIndexOf cleaned ']', true)
  else
    (-1, -1, false)

/-- The tail of `cleanJson` after fence stripping and trimming: bracket-pair
extraction, control-character stripping, and the empty-value fallbacks. -/
def cleanJsonCore (cleaned0 : Str) : Str :=
  let span := bracketSpan cleaned0
  let startIndex := span.1
  let endIndex := span.2.1
  let isArray := span.2.2
  if startIndex ≠ -1 ∧ endIndex ≠ -1 ∧ endIndex ≥ startIndex then
    let extracted :=
      (cleaned0.drop startIndex.toNat).take (endIndex.toNat + 1 - startIndex.toNat)
    let stripped := extracted.filter (fun c => !isStrippedControl c)
    let t := jsTrim stripped
    if t.isEmpty then (if isArray then emptyArrayJson else emptyObjectJson) else t
  else
    emptyObjectJson

/-- `cleanJson` from `src/services/geminiService.ts`. -/
def cleanJson (text : Str) : Str :=
  if text.isEmpty then emptyObjectJson
  else cleanJsonCore (jsTrim (stripFences text))

/-- Does `cleanJson` locate a usable bracket pair on this input (the
`startIndex !== -1 && endIndex !== -1 && endIndex >= startIndex` check)?
Empty input short-circuits before the check and locates nothing. -/
def locatesPair (text : Str) : Bool :=
  if text.isEmpty then false
  else
    let span := bracketSpan (jsTrim (stripFences text))
    decide (span.1 ≠ -1 ∧ span.2.1 ≠ -1 ∧ span.2.1 ≥ span.1)

/-! ## FallbackInvoker: `withModelFallback` from `src/services/geminiService.ts` -/

/-- `fallbacksMap[primaryModel] || []`. -/
def lookupFallbacks (fallbacksMap : List (Str × List Str)) (primaryModel : Str) :
    List Str :=
  match fallbacksMap.lookup primaryModel with
  | some l => l
  | none => []

/-- `const modelsToTry = [primaryModel, ...fallbacks]`. -/
def modelsToTry (primaryModel : Str) (fallbacksMap : List (Str × List Str)) :
    List Str :=
  primaryModel :: lookupFallbacks fallbacksMap primaryModel

/-- The `for`-loop of `withModelFallback`, instrumented with the list of
models actually attempted (in order).  The accumulator is `lastError`
(`none` models the initial `null`); on exhaustion the loop throws
`lastError || new Error(...)`, modelled by `Except.error` of the
accumulator (`Except.error none` is the synthetic no-candidates error). -/
def tryModels (operation : Str → Except E α) :
    List Str → Option E → Except (Option E) α × List Str
  | [], lastError => (Except.error lastError, [])
  | m :: rest, _lastError =>
    match operation m with
    | Except.ok v => (Except.ok v, [m])
    | Except.error e =>
      let r := tryModels operation rest (some e)
      (r.1, m :: r.2)

/-- `withModelFallback` from `src/services/geminiService.ts`, instrumented
with the attempt trace. -/
def withModelFallback (primaryModel : Str) (fallbacksMap : List (Str × List Str))
    (operation : Str → Except E α) : Except (Option E) α × List Str :=
  tryModels operation (modelsToTry primaryModel fallbacksMap) none

/-! ## Data model (from `src/types` usage in `src/unnamed/part_000` and
`src/services/geminiService.ts`) -/

/-- The six named memory buffers of `MemoryState`. -/
structure MemoryState where
  memoryZone : Str
  storyMemory : Str
  longTermMemory : Str
  coreMemory : Str
  characterRecord : Str
  inventory : Str
deriving DecidableEq, Repr

instance : Inhabited MemoryState := ⟨⟨[], [], [], [], [], []⟩⟩

/-- One snapshot in a segment's version history (the object literals pushed
onto `versions` in `handleRegenerate`; the first snapshot carries no
`location`). -/
structure SegmentVersion where
  text : Str
  choices : List Str
  visualPrompt : Str
  mood : Str
  location : Option Str := none
deriving DecidableEq, Repr

/-- A `StorySegment`.  Optional source fields are `Option`s; `versions` being
the empty list models the field being absent. -/
structure StorySegment where
  id : Str
  text : Str
  choices : List Str
  visualPrompt : Str
  mood : Str
  activeCharacterName : Option Str := none
  location : Option Str := none
  triggeredEventId : Option Str := none
  causedBy : Option Str := none
  chapterId : Option Str := none
  affinityChanges : Option (List (Str × Int)) := none
  newMemories : Option MemoryState := none
  versions : List SegmentVersion := []
  currentVersionIndex : Option Nat := none
deriving DecidableEq, Repr

instance : Inhabited StorySegment :=
  ⟨{ id := [], text := [], choices := [], visualPrompt := [], mood := [] }⟩

/-- The pacing class of a chapter. -/
inductive Pacing | fast | standard | slow
deriving DecidableEq, Repr

/-- The chapter lifecycle. -/
inductive ChapterStatus | pending | active | completed
deriving DecidableEq, Repr

/-- Chapter progress counters. -/
structure TrackedStats where
  currentWordCount : Nat
  eventsTriggered : Nat
  interactionsCount : Nat
deriving DecidableEq, Repr

/-- Chapter completion thresholds. -/
structure CompletionCriteria where
  minKeyEvents : Nat
  minInteractions : Nat
deriving DecidableEq, Repr

/-- A `PlotChapter`.  `trackedStats`, `completionCriteria` and
`finishedTurnCount` are optional in the source type and defaulted at use
sites, so they are `Option`s here. -/
structure PlotChapter where
  id : Str
  title : Str
  summary : Str
  targetWordCount : Nat
  keyEvents : Str
  keyCharacters : List Str
  pacing : Pacing
  status : ChapterStatus
  trackedStats : Option TrackedStats := none
  completionCriteria : Option CompletionCriteria := none
  finishedTurnCount : Option Nat := none
deriving DecidableEq, Repr

instance : Inhabited PlotChapter :=
  ⟨⟨[], [], [], 0, [], [], Pacing.standard, ChapterStatus.pending, none, none, none⟩⟩

/-- The chapter fields returned by the blueprint-planning model call, before
`autoPlanBlueprint` post-processing. -/
structure RawChapter where
  title : Str
  summary : Str
  targetWordCount : Option Nat := none
  keyEvents : Str
  keyCharacters : List Str
  pacing : Option Pacing := none
deriving DecidableEq, Repr

/-- Scheduled-event lifecycle. -/
inductive EventStatus | pending | completed
deriving DecidableEq, Repr

/-- A `ScheduledEvent`. -/
structure ScheduledEvent where
  id : Str
  description : Str
  status : EventStatus
  createdTurn : Nat
deriving DecidableEq, Repr

/-- A `SupportingCharacter` (the fields touched by `handleChoice`). -/
structure SupportingCharacter where
  id : Str
  name : Str
  role : Str
  affinity : Int
deriving DecidableEq, Repr

/-- The `GameContext` fields read and written by the turn state machine. -/
structure GameCtx where
  sessionId : Str
  history : List StorySegment
  currentSegment : Option StorySegment
  supportingCharacters : List SupportingCharacter
  memories : MemoryState
  scheduledEvents : List ScheduledEvent
  plotBlueprint : List PlotChapter
deriving DecidableEq, Repr

/-- Checkpoint trigger types. -/
inductive SaveType | auto | manual | setup
deriving DecidableEq, Repr

/-- A `SavedGame` checkpoint record (the fields relevant to deduplication
plus the snapshot payload). -/
structure SavedGame where
  id : Str
  sessionId : Str
  storyId : Option Str
  parentId : Option Str
  timestamp : Nat
  context : GameCtx
  type : SaveType
deriving DecidableEq, Repr

/-! ## ChapterTracker: the blueprint update inside `handleChoice`
(`src/unnamed/part_000`) -/

/-- `c.status === 'active'`. -/
def isActiveChapter (c : PlotChapter) : Bool := c.status == ChapterStatus.active

/-- The zeroed stats default `{ currentWordCount: 0, eventsTriggered: 0,
interactionsCount: 0 }`. -/
def zeroStats : TrackedStats := ⟨0, 0, 0⟩

/-- The criteria default `{ minKeyEvents: 1, minInteractions: 1 }`. -/
def defaultCriteria : CompletionCriteria := ⟨1, 1⟩

/-- `chapter.trackedStats || zero`. -/
def statsOrZero (c : PlotChapter) : TrackedStats := c.trackedStats.getD zeroStats

/-- `activeCharName && chapter.keyCharacters?.some(kc =>
activeCharName.includes(kc))`. -/
def interactionHit (chapter : PlotChapter) (seg : StorySegment) : Bool :=
  match seg.activeCharacterName with
  | none => false
  | some n => !n.isEmpty && chapter.keyCharacters.any (fun kc => jsIncludes n kc)

/-- Steps 1–3 of the progress bookkeeping: word count, event trigger,
key-character interaction. -/
def tickStats (chapter : PlotChapter) (seg : StorySegment) : TrackedStats :=
  let s := statsOrZero chapter
  { currentWordCount := s.currentWordCount + seg.text.length,
    eventsTriggered :=
      s.eventsTriggered + (if truthy seg.triggeredEventId then 1 else 0),
    interactionsCount :=
      s.interactionsCount + (if interactionHit chapter seg then 1 else 0) }

/-- Step 4's completion predicate, on the freshly updated stats:
`currentWordCount >= targetWordCount && eventsTriggered >= (minKeyEvents || 0)
&& interactionsCount >= (minInteractions || 0)`. -/
def completionMet (chapter : PlotChapter) (stats : TrackedStats) : Bool :=
  let criteria := chapter.completionCriteria.getD defaultCriteria
  decide (stats.currentWordCount ≥ chapter.targetWordCount) &&
  decide (stats.eventsTriggered ≥ criteria.minKeyEvents) &&
  decide (stats.interactionsCount ≥ criteria.minInteractions)

/-- `chapter.trackedStats = stats` (the not-yet-complete write-back). -/
def tickedChapter (c0 : PlotChapter) (stats : TrackedStats) : PlotChapter :=
  { c0 with trackedStats := some stats }

/-- The completion write-back: stats, `completed` status, and
`finishedTurnCount = (finishedTurnCount || 0) + 1`. -/
def completedChapter (c0 : PlotChapter) (stats : TrackedStats) : PlotChapter :=
  { c0 with trackedStats := some stats,
            status := ChapterStatus.completed,
            finishedTurnCount := some (c0.finishedTurnCount.getD 0 + 1) }

/-- `{ ...updatedBlueprint[activeChapterIndex + 1], status: 'active' }`. -/
def activateChapter (c : PlotChapter) : PlotChapter :=
  { c with status := ChapterStatus.active }

/-- The blueprint update of `handleChoice`: find the active chapter, tick its
stats, and on completion mark it `completed`, bump `finishedTurnCount`, and
activate the next chapter when one exists. -/
def updateBlueprint (bp : List PlotChapter) (seg : StorySegment) :
    List PlotChapter :=
  match bp.findIdx? isActiveChapter with
  | none => bp
  | some i =>
    let chapter0 := bp.getD i default
    let stats := tickStats chapter0 seg
    let isComplete := completionMet chapter0 stats
    let chapter :=
      if isComplete then completedChapter chapter0 stats
      else tickedChapter chapter0 stats
    let bp1 :=
      if isComplete ∧ i + 1 < bp.length then
        bp.set (i + 1) (activateChapter (bp.getD (i + 1) default))
      else bp
    bp1.set i chapter

/-- Number of chapters whose status is `active`. -/
def countActive (bp : List PlotChapter) : Nat := bp.countP isActiveChapter

/-! ## SessionEngine: `handleChoice` from `src/unnamed/part_000` -/

/-- The branching-replay truncation at the top of `handleChoice`:
`fromIndex !== undefined && fromIndex < history.length - 1` keeps the prefix
up to and including `fromIndex`. -/
def chooseHistoryBase (history : List StorySegment) (fromIndex : Option Nat) :
    List StorySegment :=
  match fromIndex with
  | some i => if i < history.length - 1 then history.take (i + 1) else history
  | none => history

/-- The affinity update of `handleChoice`: each character whose name maps to
a truthy (non-zero) delta gets that delta added. -/
def applyAffinityChanges (chars : List SupportingCharacter)
    (changes : Option (List (Str × Int))) : List SupportingCharacter :=
  match changes with
  | none => chars
  | some updates =>
    chars.map (fun c =>
      match updates.lookup c.name with
      | some v => if v = 0 then c else { c with affinity := c.affinity + v }
      | none => c)

/-- The scheduled-event update of `handleChoice`: when the segment carries a
truthy `triggeredEventId`, the event with that id is marked completed. -/
def completeTriggeredEvents (events : List ScheduledEvent)
    (triggeredEventId : Option Str) : List ScheduledEvent :=
  if truthy triggeredEventId then
    events.map (fun e =>
      if some e.id == triggeredEventId then { e with status := EventStatus.completed }
      else e)
  else events

/-- `const segmentWithChoice = { ...nextSegment, causedBy: choice, chapterId:
updatedBlueprint[activeChapterIndex]?.id }`. -/
def segmentWithChoice (ctx : GameCtx) (choice : Str) (nextSegment : StorySegment) :
    StorySegment :=
  let updatedBlueprint := updateBlueprint ctx.plotBlueprint nextSegment
  match ctx.plotBlueprint.findIdx? isActiveChapter with
  | some i =>
    { nextSegment with causedBy := some choice,
                       chapterId := some (updatedBlueprint.getD i default).id }
  | none => { nextSegment with causedBy := some choice, chapterId := none }

/-- The successful-turn state transition of `handleChoice`
(`src/unnamed/part_000`): history truncation and append, blueprint update,
affinity update, scheduled-event completion, memory replacement. -/
def handleChoice (ctx : GameCtx) (choice : Str) (fromIndex : Option Nat)
    (nextSegment : StorySegment) : GameCtx :=
  let history := chooseHistoryBase ctx.history fromIndex
  let updatedBlueprint := updateBlueprint ctx.plotBlueprint nextSegment
  let updatedSupportingChars :=
    applyAffinityChanges ctx.supportingCharacters nextSegment.affinityChanges
  let updatedEvents :=
    completeTriggeredEvents ctx.scheduledEvents nextSegment.triggeredEventId
  let seg := segmentWithChoice ctx choice nextSegment
  { ctx with
    history := history ++ [seg],
    currentSegment := some seg,
    supportingCharacters := updatedSupportingChars,
    memories := nextSegment.newMemories.getD ctx.memories,
    scheduledEvents := updatedEvents,
    plotBlueprint := updatedBlueprint }

/-! ## Blueprint planning (`autoPlanBlueprint` post-processing in
`src/services/geminiService.ts`) and session start (`handleStartGame`) -/

/-- The per-chapter post-processing of `autoPlanBlueprint`: fresh id,
`pending` status, zeroed stats, default criteria, defaulted pacing, and the
target word count clamped into `[minW, maxW]` (with the `|| 3000` default). -/
def processChapter (minW maxW : Nat) (freshId : Str) (c : RawChapter) :
    PlotChapter :=
  { id := freshId, title := c.title, summary := c.summary,
    keyEvents := c.keyEvents, keyCharacters := c.keyCharacters,
    status := ChapterStatus.pending,
    trackedStats := some zeroStats,
    completionCriteria := some defaultCriteria,
    finishedTurnCount := none,
    pacing := c.pacing.getD Pacing.standard,
    targetWordCount :=
      max minW (min (match c.targetWordCount with
        | some w => if w = 0 then 3000 else w
        | none => 3000) maxW) }

/-- The chapter list produced by one `autoPlanBlueprint` call; `freshIds`
models the per-chapter `generateUUID()` calls. -/
def autoPlanChapters (freshIds : Nat → Str) (minW maxW : Nat)
    (raw : List RawChapter) : List PlotChapter :=
  raw.mapIdx (fun i c => processChapter minW maxW (freshIds i) c)

/-- `handleStartGame`'s `initialBlueprint`: chapter `0` becomes `active`,
every other chapter is kept as-is. -/
def startGameBlueprint (bp : List PlotChapter) : List PlotChapter :=
  bp.mapIdx (fun i c => if i = 0 then { c with status := ChapterStatus.active } else c)

/-- `handleStartGame`'s `startingBlueprint`: the opening segment's stats are
ticked on every `active` chapter; statuses are untouched. -/
def openingBlueprintStats (bp : List PlotChapter) (openingSegment : StorySegment) :
    List PlotChapter :=
  bp.map (fun chapter =>
    if chapter.status == ChapterStatus.active then
      { chapter with trackedStats := some (tickStats chapter openingSegment) }
    else chapter)

/-- Blueprints constructible during setup: empty, or produced/extended by
`handleAutoPlanBlueprint` (whose chapters all start `pending`). -/
inductive SetupBlueprint : List PlotChapter → Prop
  | empty : SetupBlueprint []
  | planAll (freshIds : Nat → Str) (minW maxW : Nat) (raw : List RawChapter) :
      SetupBlueprint (autoPlanChapters freshIds minW maxW raw)
  | planExtend (freshIds : Nat → Str) (minW maxW : Nat) (raw : List RawChapter)
      {bp : List PlotChapter} : SetupBlueprint bp →
      SetupBlueprint (bp ++ autoPlanChapters freshIds minW maxW raw)

/-- Blueprints reachable in a live session: session start on a setup
blueprint, then any interleaving of turn advances (`handleChoice`) and
`handleAutoPlanBlueprint` extensions/replacements. -/
inductive ReachableBlueprint : List PlotChapter → Prop
  | start (openingSegment : StorySegment) {bp : List PlotChapter} :
      SetupBlueprint bp →
      ReachableBlueprint (openingBlueprintStats (startGameBlueprint bp) openingSegment)
  | turn (seg : StorySegment) {bp : List PlotChapter} :
      ReachableBlueprint bp → ReachableBlueprint (updateBlueprint bp seg)
  | planExtend (freshIds : Nat → Str) (minW maxW : Nat) (raw : List RawChapter)
      {bp : List PlotChapter} : ReachableBlueprint bp →
      ReachableBlueprint (bp ++ autoPlanChapters freshIds minW maxW raw)
  | planReplace (freshIds : Nat → Str) (minW maxW : Nat) (raw : List RawChapter)
      {bp : List PlotChapter} : ReachableBlueprint bp →
      ReachableBlueprint (autoPlanChapters freshIds minW maxW raw)

/-! ## SegmentVersionStore: `handleRegenerate` and `handleSwitchVersion`
(`src/unnamed/part_000`) -/

/-- The three regeneration modes. -/
inductive RegenMode | full | text | choices
deriving DecidableEq, Repr

/-- The "non-regenerable node" error message of `handleRegenerate`. -/
def nonRegenerableError : Str := "无法重新生成此节点".data

/-- Outcome of a `handleRegenerate` call: the (possibly unchanged) context,
whether the content backend was contacted, and the surfaced error if any. -/
structure RegenResult where
  ctx : GameCtx
  backendCalled : Bool
  errorMsg : Option Str
deriving DecidableEq, Repr

instance : Inhabited SegmentVersion := ⟨⟨[], [], [], [], none⟩⟩

/-- The version-history append of `handleRegenerate` (modes `full`/`text`):
snapshot the live fields as version `0` on first regeneration, append the
new generation, and point the live fields at it. -/
def regenVersionAppend (lastSegment : StorySegment) (newSegment : StorySegment) :
    StorySegment :=
  let currentSeg :=
    if lastSegment.versions.isEmpty then
      { lastSegment with
        versions := [⟨lastSegment.text, lastSegment.choices,
                      lastSegment.visualPrompt, lastSegment.mood, none⟩],
        currentVersionIndex := some 0 }
    else lastSegment
  let newVersion : SegmentVersion :=
    ⟨newSegment.text, newSegment.choices, newSegment.visualPrompt,
     newSegment.mood, newSegment.location⟩
  let versions := currentSeg.versions ++ [newVersion]
  { currentSeg with
    versions := versions,
    currentVersionIndex := some (versions.length - 1),
    text := newVersion.text, choices := newVersion.choices,
    visualPrompt := newVersion.visualPrompt, mood := newVersion.mood,
    location := newVersion.location }

/-- `handleRegenerate` from `src/unnamed/part_000`.  `newSegment` stands for
the backend's answer; `backendCalled` records whether execution reached the
`advanceStory` call. -/
def handleRegenerate (ctx : GameCtx) (mode : RegenMode)
    (newSegment : StorySegment) : RegenResult :=
  if ctx.history.length = 0 then ⟨ctx, false, none⟩
  else
    let lastIdx := ctx.history.length - 1
    let lastSegment := ctx.history.getD lastIdx default
    if mode ≠ RegenMode.choices ∧ 0 < lastIdx ∧ truthy lastSegment.causedBy = false then
      ⟨ctx, false, some nonRegenerableError⟩
    else
      match mode with
      | RegenMode.choices =>
        let history :=
          ctx.history.set lastIdx { lastSegment with choices := newSegment.choices }
        ⟨{ ctx with history := history,
                    currentSegment := some (history.getD lastIdx default) },
         true, none⟩
      | _ =>
        let updatedSeg := regenVersionAppend lastSegment newSegment
        let history := ctx.history.set lastIdx updatedSeg
        ⟨{ ctx with history := history,
                    currentSegment := some updatedSeg,
                    memories := newSegment.newMemories.getD ctx.memories },
         true, none⟩

/-- The two `switchVersion` directions. -/
inductive SwitchDirection | prev | next
deriving DecidableEq, Repr

/-- The `newIdx` reassignment chain of `handleSwitchVersion`:
`(currentVersionIndex || 0) ± 1`, wrapping below `0` to the last version and
past the last version to `0`. -/
def switchIdx (cur L : Nat) (direction : SwitchDirection) : Nat :=
  let idx0 : Int := (cur : Int) + (if direction = SwitchDirection.next then 1 else -1)
  let idx1 : Int := if idx0 < 0 then (L : Int) - 1 else idx0
  let idx2 : Int := if idx1 ≥ (L : Int) then 0 else idx1
  idx2.toNat

/-- The per-segment core of `handleSwitchVersion`: move the active index by
`±1` with wraparound, no-op when fewer than two versions exist or the index
does not change, and mirror the newly active version into the live fields. -/
def switchVersionSeg (seg : StorySegment) (direction : SwitchDirection) :
    StorySegment :=
  if seg.versions.length < 2 then seg
  else
    let newIdx := switchIdx (seg.currentVersionIndex.getD 0) seg.versions.length direction
    if seg.currentVersionIndex == some newIdx then seg
    else
      let v := seg.versions.getD newIdx default
      { seg with currentVersionIndex := some newIdx,
                 text := v.text, choices := v.choices,
                 visualPrompt := v.visualPrompt, mood := v.mood,
                 location := v.location }

/-- `handleSwitchVersion` on the history list: locate the segment by id and
apply the per-segment switch. -/
def handleSwitchVersion (history : List StorySegment) (segmentId : Str)
    (direction : SwitchDirection) : List StorySegment :=
  match history.findIdx? (fun h => h.id == segmentId) with
  | none => history
  | some idx => history.set idx (switchVersionSeg (history.getD idx default) direction)

/-! ## PersistenceCoordinator: the auto-checkpoint dedup inside
`handleChoice` (`src/unnamed/part_000`) -/

/-- The `setSavedGames` updater of the auto-checkpoint path: skip insertion
when a record with the same `(sessionId, storyId)` pair already exists. -/
def addAutoSaveDedup (prevSaves : List SavedGame) (saveObj : SavedGame) :
    List SavedGame :=
  if prevSaves.any (fun s =>
      s.storyId == saveObj.storyId && s.sessionId == saveObj.sessionId) then
    prevSaves
  else saveObj :: prevSaves

/-- Number of stored checkpoints for a given `(sessionId, storyId)` pair. -/
def countSavesFor (saves : List SavedGame) (sessionId : Str)
    (storyId : Option Str) : Nat :=
  saves.countP (fun s => s.sessionId == sessionId && s.storyId == storyId)

/-! ## Concrete instances used by witnesses and counterexamples -/

/-- An empty game context. -/
def emptyCtx : GameCtx :=
  { sessionId := [], history := [], currentSegment := none,
    supportingCharacters := [], memories := default, scheduledEvents := [],
    plotBlueprint := [] }

/-- A small story segment with the given id character. -/
def sampleSegment (idc : Char) : StorySegment :=
  { id := [idc], text := ['x'], choices := [['c']], visualPrompt := ['v'],
    mood := ['m'] }

/-- A regeneration answer whose choice list differs from `sampleSegment`'s. -/
def sampleRegenSegment : StorySegment :=
  { id := ['n'], text := ['z'], choices := [['z']], visualPrompt := ['w'],
    mood := ['m'] }

/-- A context whose two-segment history ends in a segment with no
`causedBy`. -/
def sampleCtx9 : GameCtx :=
  { emptyCtx with history := [sampleSegment 'a', sampleSegment 'b'] }

/-- A version snapshot with one-character text. -/
def sampleVersion (c : Char) : SegmentVersion :=
  { text := [c], choices := [], visualPrompt := [], mood := [] }

/-- A segment holding three versions with active index `1`. -/
def sampleVersionedSeg : StorySegment :=
  { sampleSegment 'v' with
    versions := [sampleVersion 'a', sampleVersion 'b', sampleVersion 'c'],
    currentVersionIndex := some 1 }

/-- An auto checkpoint with the given id character and a fixed
`(sessionId, storyId)` pair. -/
def sampleSave (idc : Char) : SavedGame :=
  { id := [idc], sessionId := ['s'], storyId := some ['y'], parentId := none,
    timestamp := 0, context := emptyCtx, type := SaveType.auto }

/-- The end-to-end scenario's first chapter: `targetWordCount = 300`,
`minKeyEvents = 1`, `minInteractions = 1`, key character `K`, active. -/
def e2eChapter1 : PlotChapter :=
  { id := ['c', '1'], title := ['t'], summary := [], targetWordCount := 300,
    keyEvents := [], keyCharacters := [['K']], pacing := Pacing.standard,
    status := ChapterStatus.active, trackedStats := some zeroStats,
    completionCriteria := some ⟨1, 1⟩, finishedTurnCount := none }

/-- The end-to-end scenario's second, still pending chapter. -/
def e2eChapter2 : PlotChapter :=
  { e2eChapter1 with id := ['c', '2'], status := ChapterStatus.pending }

/-- Turn 1 of the scenario: 100 characters of text. -/
def e2eSeg1 : StorySegment :=
  { id := ['1'], text := List.replicate 100 'a', choices := [],
    visualPrompt := [], mood := [] }

/-- Turn 2 of the scenario: 150 characters and a triggered event. -/
def e2eSeg2 : StorySegment :=
  { id := ['2'], text := List.replicate 150 'a', choices := [],
    visualPrompt := [], mood := [], triggeredEventId := some ['e'] }

/-- Turn 3 of the scenario: 60 characters and an interaction with the key
character `K`. -/
def e2eSeg3 : StorySegment :=
  { id := ['3'], text := List.replicate 60 'a', choices := [],
    visualPrompt := [], mood := [], activeCharacterName := some ['K'] }

/-- The scenario's starting context: two-chapter blueprint, first active. -/
def e2eCtx0 : GameCtx := { emptyCtx with plotBlueprint := [e2eChapter1, e2eChapter2] }

/-- The scenario after turn 1. -/
def e2eCtx1 : GameCtx := handleChoice e2eCtx0 ['u'] none e2eSeg1

/-- The scenario after turn 2. -/
def e2eCtx2 : GameCtx := handleChoice e2eCtx1 ['u'] none e2eSeg2

/-! THEOREMS-MARKER -/

/-! ## List helper lemmas -/

theorem listGetD_of_lt {α : Type} {l : List α} {i : Nat} (d : α) (h : i < l.length) :
    l.getD i d = l[i] := by
  simp [List.getD_eq_getElem?_getD, List.getElem?_eq_getElem h]

theorem listGetD_set_self {α : Type} {l : List α} {i : Nat} (a d : α)
    (h : i < l.length) : (l.set i a).getD i d = a := by
  simp [List.getD_eq_getElem?_getD, List.getElem?_set_self h]

theorem listGetD_set_ne {α : Type} {l : List α} {i j : Nat} (h : i ≠ j) (a d : α) :
    (l.set i a).getD j d = l.getD j d := by
  simp [List.getD_eq_getElem?_getD, List.getElem?_set_ne h]

theorem countP_set_add {α : Type} (p : α → Bool) (d : α) :
    ∀ (l : List α) (i : Nat), i < l.length → ∀ a : α,
      (l.set i a).countP p + (if p (l.getD i d) then 1 else 0) =
        l.countP p + (if p a then 1 else 0) := by
  intro l
  induction l with
  | nil => intro i h; simp at h
  | cons x xs ih =>
    intro i h a
    cases i with
    | zero =>
      simp only [List.set_cons_zero, List.countP_cons, List.getD_cons_zero]
      omega
    | succ n =>
      have hn : n < xs.length := by simpa using h
      simp only [List.set_cons_succ, List.countP_cons, List.getD_cons_succ]
      have := ih n hn a
      omega

theorem countP_pos_of_getD {α : Type} (p : α → Bool) (d : α) {l : List α} {i : Nat}
    (h : i < l.length) (hp : p (l.getD i d) = true) : 0 < l.countP p := by
  rw [List.countP_pos_iff]
  refine ⟨l.getD i d, ?_, hp⟩
  rw [listGetD_of_lt d h]
  exact List.getElem_mem h

theorem two_le_countP {α : Type} (p : α → Bool) (d : α) :
    ∀ (l : List α) (i j : Nat), i < j → j < l.length →
      p (l.getD i d) = true → p (l.getD j d) = true → 2 ≤ l.countP p := by
  intro l
  induction l with
  | nil => intro i j _ hj; simp at hj
  | cons x xs ih =>
    intro i j hij hj hpi hpj
    cases i with
    | zero =>
      have hx : p x = true := by simpa using hpi
      cases j with
      | zero => omega
      | succ n =>
        have hn : n < xs.length := by simpa using hj
        have hpn : p (xs.getD n d) = true := by simpa using hpj
        have h1 : 0 < xs.countP p := countP_pos_of_getD p d hn hpn
        rw [List.countP_cons]
        simp only [hx, if_pos]
        omega
    | succ m =>
      cases j with
      | zero => omega
      | succ n =>
        have hrec := ih m n (by omega) (by simpa using hj)
          (by simpa using hpi) (by simpa using hpj)
        rw [List.countP_cons]
        omega

theorem findIdx?_some_facts {α : Type} {l : List α} {p : α → Bool} {i : Nat}
    (d : α) (h : l.findIdx? p = some i) :
    i < l.length ∧ p (l.getD i d) = true := by
  rw [List.findIdx?_eq_some_iff_getElem] at h
  obtain ⟨hlt, hp, -⟩ := h
  exact ⟨hlt, by rwa [listGetD_of_lt d hlt]⟩

/-! ## Blueprint update lemmas -/

theorem isActive_tickedChapter (c : PlotChapter) (s : TrackedStats) :
    isActiveChapter (tickedChapter c s) = isActiveChapter c := by
  simp [isActiveChapter, tickedChapter]

theorem isActive_completedChapter (c : PlotChapter) (s : TrackedStats) :
    isActiveChapter (completedChapter c s) = false := by
  simp [isActiveChapter, completedChapter]

theorem isActive_activateChapter (c : PlotChapter) :
    isActiveChapter (activateChapter c) = true := by
  simp [isActiveChapter, activateChapter]

theorem statsOrZero_tickedChapter (c : PlotChapter) (s : TrackedStats) :
    statsOrZero (tickedChapter c s) = s := rfl

theorem statsOrZero_completedChapter (c : PlotChapter) (s : TrackedStats) :
    statsOrZero (completedChapter c s) = s := rfl

theorem statsOrZero_activateChapter (c : PlotChapter) :
    statsOrZero (activateChapter c) = statsOrZero c := rfl

theorem updateBlueprint_length (bp : List PlotChapter) (seg : StorySegment) :
    (updateBlueprint bp seg).length = bp.length := by
  unfold updateBlueprint
  cases h : bp.findIdx? isActiveChapter with
  | none => rfl
  | some i =>
    simp only []
    split <;> simp

theorem updateBlueprint_stats_active (bp : List PlotChapter) (seg : StorySegment)
    (i : Nat) (h : bp.findIdx? isActiveChapter = some i) :
    statsOrZero ((updateBlueprint bp seg).getD i default) =
      tickStats (bp.getD i default) seg := by
  obtain ⟨hi, -⟩ := findIdx?_some_facts (default : PlotChapter) h
  simp only [updateBlueprint, h]
  by_cases hcomp :
      completionMet (bp.getD i default) (tickStats (bp.getD i default) seg) = true
  · by_cases hnext : i + 1 < bp.length
    · rw [if_pos ⟨hcomp, hnext⟩, if_pos hcomp,
        listGetD_set_self _ _ (by simpa using hi), statsOrZero_completedChapter]
    · rw [if_neg (fun hc => hnext hc.2), if_pos hcomp, listGetD_set_self _ _ hi,
        statsOrZero_completedChapter]
  · rw [if_neg (fun hc => hcomp hc.1), if_neg hcomp, listGetD_set_self _ _ hi,
      statsOrZero_tickedChapter]

theorem updateBlueprint_stats_frame (bp : List PlotChapter) (seg : StorySegment)
    (i : Nat) (h : bp.findIdx? isActiveChapter = some i) :
    ∀ j, j ≠ i → statsOrZero ((updateBlueprint bp seg).getD j default) =
      statsOrZero (bp.getD j default) := by
  intro j hj
  simp only [updateBlueprint, h]
  rw [listGetD_set_ne (Ne.symm hj)]
  split
  · rename_i hcond
    by_cases hji : j = i + 1
    · subst hji
      rw [listGetD_set_self _ _ hcond.2, statsOrZero_activateChapter]
    · rw [listGetD_set_ne (fun hh => hji hh.symm)]
  · rfl

theorem updateBlueprint_completes (bp : List PlotChapter) (seg : StorySegment)
    (i : Nat) (h : bp.findIdx? isActiveChapter = some i)
    (hcomp : completionMet (bp.getD i default)
      (tickStats (bp.getD i default) seg) = true) :
    ((updateBlueprint bp seg).getD i default).status = ChapterStatus.completed ∧
    ((updateBlueprint bp seg).getD i default).finishedTurnCount.getD 0 =
      (bp.getD i default).finishedTurnCount.getD 0 + 1 ∧
    (i + 1 < bp.length →
      ((updateBlueprint bp seg).getD (i + 1) default).status = ChapterStatus.active) ∧
    (i + 1 = bp.length → countActive bp ≤ 1 →
      countActive (updateBlueprint bp seg) = 0) := by
  obtain ⟨hi, hact⟩ := findIdx?_some_facts (default : PlotChapter) h
  refine ⟨?_, ?_, ?_, ?_⟩
  · simp only [updateBlueprint, h]
    by_cases hnext : i + 1 < bp.length
    · rw [if_pos ⟨hcomp, hnext⟩, if_pos hcomp,
        listGetD_set_self _ _ (by simpa using hi)]
      rfl
    · rw [if_neg (fun hc => hnext hc.2), if_pos hcomp, listGetD_set_self _ _ hi]
      rfl
  · simp only [updateBlueprint, h]
    by_cases hnext : i + 1 < bp.length
    · rw [if_pos ⟨hcomp, hnext⟩, if_pos hcomp,
        listGetD_set_self _ _ (by simpa using hi)]
      rfl
    · rw [if_neg (fun hc => hnext hc.2), if_pos hcomp, listGetD_set_self _ _ hi]
      rfl
  · intro hnext
    simp only [updateBlueprint, h]
    rw [if_pos ⟨hcomp, hnext⟩, listGetD_set_ne (by omega),
      listGetD_set_self _ _ hnext]
    rfl
  · intro hlast hinv
    have hlow : 0 < countActive bp := countP_pos_of_getD isActiveChapter default hi hact
    unfold countActive at hinv hlow ⊢
    simp only [updateBlueprint, h]
    rw [if_neg (fun hc => absurd hc.2 (by omega)), if_pos hcomp]
    have hset := countP_set_add isActiveChapter default bp i hi
      (completedChapter (bp.getD i default) (tickStats (bp.getD i default) seg))
    rw [hact, isActive_completedChapter] at hset
    simp only [if_pos, if_neg, Bool.false_eq_true, if_false, if_true] at hset
    omega

theorem updateBlueprint_atMostOne (bp : List PlotChapter) (seg : StorySegment)
    (h : countActive bp ≤ 1) : countActive (updateBlueprint bp seg) ≤ 1 := by
  cases hfind : bp.findIdx? isActiveChapter with
  | none => simpa [updateBlueprint, hfind] using h
  | some i =>
    obtain ⟨hi, hact⟩ := findIdx?_some_facts (default : PlotChapter) hfind
    have hone : countActive bp = 1 := by
      have := countP_pos_of_getD isActiveChapter default hi hact
      unfold countActive at *
      omega
    unfold countActive at hone ⊢
    simp only [updateBlueprint, hfind]
    by_cases hcomp : completionMet (bp.getD i default)
        (tickStats (bp.getD i default) seg) = true
    · by_cases hnext : i + 1 < bp.length
      · rw [if_pos ⟨hcomp, hnext⟩, if_pos hcomp]
        have hnotact : isActiveChapter (bp.getD (i + 1) default) = false := by
          by_contra hcontra
          have h2 := two_le_countP isActiveChapter default bp i (i + 1)
            (by omega) hnext hact (by simpa using hcontra)
          omega
        have hstep1 := countP_set_add isActiveChapter default bp (i + 1) hnext
          (activateChapter (bp.getD (i + 1) default))
        rw [hnotact, isActive_activateChapter] at hstep1
        have hstep2 := countP_set_add isActiveChapter default
          (bp.set (i + 1) (activateChapter (bp.getD (i + 1) default)))
          i (by simpa using hi)
          (completedChapter (bp.getD i default) (tickStats (bp.getD i default) seg))
        rw [listGetD_set_ne (by omega), hact, isActive_completedChapter] at hstep2
        simp only [Bool.false_eq_true, if_false, if_true] at hstep1 hstep2
        omega
      · rw [if_neg (fun hc => hnext hc.2), if_pos hcomp]
        have hstep := countP_set_add isActiveChapter default bp i hi
          (completedChapter (bp.getD i default) (tickStats (bp.getD i default) seg))
        rw [hact, isActive_completedChapter] at hstep
        simp only [Bool.false_eq_true, if_false, if_true] at hstep
        omega
    · rw [if_neg (fun hc => hcomp hc.1), if_neg hcomp]
      have hstep := countP_set_add isActiveChapter default bp i hi
        (tickedChapter (bp.getD i default) (tickStats (bp.getD i default) seg))
      rw [hact, isActive_tickedChapter, hact] at hstep
      simp only [if_true] at hstep
      omega


theorem cleanJsonCore_fail (cleaned0 : Str)
    (h : ¬((bracketSpan cleaned0).1 ≠ -1 ∧ (bracketSpan cleaned0).2.1 ≠ -1 ∧
        (bracketSpan cleaned0).2.1 ≥ (bracketSpan cleaned0).1)) :
    cleanJsonCore cleaned0 = emptyObjectJson := by
  unfold cleanJsonCore
  exact if_neg h

/-- Claim C4 (counterexample): on the input consisting of the single
character `[`, an array opener is found and no brace at all, extraction
fails, yet `cleanJson` returns the empty-object string and not the
empty-array string the claim requires. -/
theorem cleanJson_lbracket_counterexample :
    jsIndexOf (jsTrim (stripFences ['['])) '[' ≠ -1 ∧
    jsIndexOf (jsTrim (stripFences ['['])) lbrace = -1 ∧
    locatesPair ['['] = false ∧
    cleanJson ['['] = emptyObjectJson ∧
    cleanJson ['['] ≠ emptyArrayJson := by
  decide

/-- Claim C4 (amended): whenever `cleanJson` cannot locate a matching
top-level bracket pair, it returns the empty-object string — even when an
array opener was found.  (The empty-array fallback of the source is
unreachable on extraction failure.)  `cleanJson` is a total function, so it
never throws. -/
theorem cleanJson_fail_returns_empty_object (text : Str)
    (h : locatesPair text = false) :
    cleanJson text = emptyObjectJson := by
  unfold cleanJson
  unfold locatesPair at h
  by_cases he : text.isEmpty
  · rw [if_pos he]
  · rw [if_neg he]
    rw [if_neg he] at h
    simp only [decide_eq_false_iff_not] at h
    exact cleanJsonCore_fail _ h

/-- Claim C4 witness: the amended theorem applied to the concrete failing
input `[`. -/
theorem cleanJson_fail_witness :
    locatesPair ['['] = false ∧ cleanJson ['['] = emptyObjectJson :=
  ⟨by decide, cleanJson_fail_returns_empty_object ['['] (by decide)⟩

theorem tryModels_all_fail (operation : Str → Except E α) (err : Str → E)
    (hfail : ∀ m, operation m = Except.error (err m)) :
    ∀ (l : List Str) (acc : Option E),
      tryModels operation l acc =
        (Except.error (match l.getLast? with
          | some m => some (err m)
          | none => acc), l) := by
  intro l
  induction l with
  | nil => intro acc; rfl
  | cons m rest ih =>
    intro acc
    unfold tryModels
    rw [hfail m]
    simp only [ih (some (err m))]
    cases rest with
    | nil => rfl
    | cons b l =>
      cases hgl : (b :: l).getLast? with
      | none => simp at hgl
      | some x => simp [hgl]

/-- Claim C5: when the operation fails for every model, `withModelFallback`
attempts exactly the candidates `[primaryModel] ++ fallbacksMap[primaryModel]`
(empty fallback list when the primary model is absent from the table), each
exactly once and in that order, and fails with the failure of the last
candidate.  In particular, with an empty fallback table the only attempt is
the primary model. -/
theorem withModelFallback_all_fail (primaryModel : Str)
    (fallbacksMap : List (Str × List Str)) (operation : Str → Except E α)
    (err : Str → E) (hfail : ∀ m, operation m = Except.error (err m)) :
    withModelFallback primaryModel fallbacksMap operation =
      (Except.error (some (err ((modelsToTry primaryModel fallbacksMap).getLastD
        primaryModel))),
       modelsToTry primaryModel fallbacksMap) := by
  unfold withModelFallback
  rw [tryModels_all_fail operation err hfail]
  cases h : (modelsToTry primaryModel fallbacksMap).getLast? with
  | none =>
    exfalso
    simp only [modelsToTry] at h
    simp [List.getLast?_eq_getLast] at h
  | some m =>
    simp [List.getLastD_eq_getLast?, h]

/-- Claim C5 witness: with the empty fallback table and an operation failing
with error code `7`, the invoker makes exactly one attempt, on the preferred
model, and fails with that error. -/
theorem withModelFallback_witness :
    withModelFallback ['g'] [] (fun _ => (Except.error 7 : Except Nat Nat)) =
      (Except.error (some 7), [['g']]) := by
  have h := withModelFallback_all_fail ['g'] []
    (fun _ => (Except.error 7 : Except Nat Nat)) (fun _ => 7) (fun _ => rfl)
  simpa using h


/-! ## Setup and session-start blueprint lemmas -/

theorem autoPlanChapters_pending (freshIds : Nat → Str) (minW maxW : Nat)
    (raw : List RawChapter) :
    countActive (autoPlanChapters freshIds minW maxW raw) = 0 := by
  unfold countActive autoPlanChapters
  rw [List.countP_eq_zero]
  intro a ha
  rw [List.mem_mapIdx] at ha
  obtain ⟨j, hj, rfl⟩ := ha
  simp [processChapter, isActiveChapter]

theorem setupBlueprint_no_active {bp : List PlotChapter} (h : SetupBlueprint bp) :
    countActive bp = 0 := by
  induction h with
  | empty => rfl
  | planAll freshIds minW maxW raw =>
    exact autoPlanChapters_pending freshIds minW maxW raw
  | planExtend freshIds minW maxW raw hbp ih =>
    have h0 := autoPlanChapters_pending freshIds minW maxW raw
    unfold countActive at h0 ih ⊢
    rw [List.countP_append]
    omega

theorem startGameBlueprint_atMostOne (bp : List PlotChapter)
    (h : countActive bp = 0) : countActive (startGameBlueprint bp) ≤ 1 := by
  cases bp with
  | nil => simp [startGameBlueprint, countActive]
  | cons c rest =>
    unfold startGameBlueprint
    rw [List.mapIdx_cons]
    have hrest : (rest.mapIdx fun i c =>
        if i + 1 = 0 then { c with status := ChapterStatus.active } else c) = rest := by
      rw [List.mapIdx_eq_iff]
      intro i
      cases h' : rest[i]? <;> simp
    rw [hrest]
    unfold countActive at h ⊢
    have h1 : List.countP isActiveChapter rest = 0 := by
      rw [List.countP_cons] at h
      split at h <;> omega
    rw [List.countP_cons, h1]
    simp [isActiveChapter]

theorem openingBlueprintStats_countActive (bp : List PlotChapter)
    (seg : StorySegment) :
    countActive (openingBlueprintStats bp seg) = countActive bp := by
  unfold countActive openingBlueprintStats
  rw [List.countP_map]
  apply List.countP_congr
  intro c _
  by_cases hc : c.status == ChapterStatus.active
  · simp [Function.comp, isActiveChapter, hc]
  · simp [Function.comp, isActiveChapter, hc]

/-- Claim C3: every blueprint reachable through session start, turn advances
and auto-plan extensions/replacements has at most one `active` chapter, for
every blueprint length. -/
theorem reachableBlueprint_at_most_one_active (bp : List PlotChapter)
    (h : ReachableBlueprint bp) : countActive bp ≤ 1 := by
  induction h with
  | start openingSegment hsetup =>
    rw [openingBlueprintStats_countActive]
    exact startGameBlueprint_atMostOne _ (setupBlueprint_no_active hsetup)
  | turn seg _ ih => exact updateBlueprint_atMostOne _ _ ih
  | planExtend freshIds minW maxW raw _ ih =>
    have h0 := autoPlanChapters_pending freshIds minW maxW raw
    unfold countActive at h0 ih ⊢
    rw [List.countP_append]
    omega
  | planReplace freshIds minW maxW raw _ _ =>
    rw [autoPlanChapters_pending freshIds minW maxW raw]
    omega

/-- Claim C3 witness: the invariant instantiated on a concrete one-chapter
blueprint reached by planning then starting a session. -/
theorem reachableBlueprint_witness :
    countActive (openingBlueprintStats (startGameBlueprint
      (autoPlanChapters (fun _ => ['u']) 3000 5000
        [{ title := ['t'], summary := ['s'], keyEvents := ['e'],
           keyCharacters := [['K']] }])) default) ≤ 1 :=
  reachableBlueprint_at_most_one_active _
    (ReachableBlueprint.start default (SetupBlueprint.planAll _ _ _ _))

/-! ## Turn-advance claim theorems -/

theorem handleChoice_blueprint (ctx : GameCtx) (choice : Str)
    (fromIndex : Option Nat) (nextSegment : StorySegment) :
    (handleChoice ctx choice fromIndex nextSegment).plotBlueprint =
      updateBlueprint ctx.plotBlueprint nextSegment := rfl

/-- Claim C2: a turn advance with an active chapter adds the segment's text
length to that chapter's word count, bumps `eventsTriggered` exactly when the
segment carries a truthy `triggeredEventId`, bumps `interactionsCount`
exactly when the segment carries an `activeCharacterName` containing some
key character name of that chapter as a substring, and leaves every other
chapter's tracked stats unchanged. -/
theorem handleChoice_tracked_stats (ctx : GameCtx) (choice : Str)
    (fromIndex : Option Nat) (nextSegment : StorySegment) (i : Nat)
    (h : ctx.plotBlueprint.findIdx? isActiveChapter = some i) :
    (statsOrZero ((handleChoice ctx choice fromIndex nextSegment).plotBlueprint.getD
        i default)).currentWordCount =
      (statsOrZero (ctx.plotBlueprint.getD i default)).currentWordCount +
        nextSegment.text.length ∧
    (statsOrZero ((handleChoice ctx choice fromIndex nextSegment).plotBlueprint.getD
        i default)).eventsTriggered =
      (statsOrZero (ctx.plotBlueprint.getD i default)).eventsTriggered +
        (if truthy nextSegment.triggeredEventId then 1 else 0) ∧
    (statsOrZero ((handleChoice ctx choice fromIndex nextSegment).plotBlueprint.getD
        i default)).interactionsCount =
      (statsOrZero (ctx.plotBlueprint.getD i default)).interactionsCount +
        (if interactionHit (ctx.plotBlueprint.getD i default) nextSegment then 1 else 0) ∧
    ∀ j, j ≠ i →
      statsOrZero ((handleChoice ctx choice fromIndex nextSegment).plotBlueprint.getD
        j default) = statsOrZero (ctx.plotBlueprint.getD j default) := by
  have hstats := updateBlueprint_stats_active ctx.plotBlueprint nextSegment i h
  refine ⟨?_, ?_, ?_, ?_⟩
  · rw [handleChoice_blueprint, hstats]
    rfl
  · rw [handleChoice_blueprint, hstats]
    rfl
  · rw [handleChoice_blueprint, hstats]
    rfl
  · intro j hj
    rw [handleChoice_blueprint]
    exact updateBlueprint_stats_frame ctx.plotBlueprint nextSegment i h j hj

/-- Claim C1: when a turn advance pushes the active chapter's updated stats
past the completion predicate, that chapter becomes `completed`, its
finished-turn counter is incremented, the next chapter in blueprint order
(when one exists) becomes `active`, and when the completed chapter was the
last one, no chapter is active afterwards. -/
theorem handleChoice_chapter_completion (ctx : GameCtx) (choice : Str)
    (fromIndex : Option Nat) (nextSegment : StorySegment) (i : Nat)
    (h : ctx.plotBlueprint.findIdx? isActiveChapter = some i)
    (hinv : countActive ctx.plotBlueprint ≤ 1)
    (hcomp : completionMet (ctx.plotBlueprint.getD i default)
      (tickStats (ctx.plotBlueprint.getD i default) nextSegment) = true) :
    ((handleChoice ctx choice fromIndex nextSegment).plotBlueprint.getD
        i default).status = ChapterStatus.completed ∧
    ((handleChoice ctx choice fromIndex nextSegment).plotBlueprint.getD
        i default).finishedTurnCount.getD 0 =
      (ctx.plotBlueprint.getD i default).finishedTurnCount.getD 0 + 1 ∧
    (i + 1 < ctx.plotBlueprint.length →
      ((handleChoice ctx choice fromIndex nextSegment).plotBlueprint.getD
        (i + 1) default).status = ChapterStatus.active) ∧
    (i + 1 = ctx.plotBlueprint.length →
      countActive (handleChoice ctx choice fromIndex nextSegment).plotBlueprint = 0) := by
  have hc := updateBlueprint_completes ctx.plotBlueprint nextSegment i h hcomp
  refine ⟨?_, ?_, ?_, ?_⟩
  · rw [handleChoice_blueprint]
    exact hc.1
  · rw [handleChoice_blueprint]
    exact hc.2.1
  · rw [handleChoice_blueprint]
    exact hc.2.2.1
  · intro hl
    rw [handleChoice_blueprint]
    exact hc.2.2.2 hl hinv

/-- Claim C10: a turn advanced from `fromIndex` strictly before the last
history entry discards everything after `fromIndex`; the new history is the
prefix through `fromIndex` plus the new segment, which becomes current. -/
theorem handleChoice_branching_replay (ctx : GameCtx) (choice : Str) (i : Nat)
    (nextSegment : StorySegment) (h : i + 1 < ctx.history.length) :
    (handleChoice ctx choice (some i) nextSegment).history =
      ctx.history.take (i + 1) ++ [segmentWithChoice ctx choice nextSegment] ∧
    (handleChoice ctx choice (some i) nextSegment).currentSegment =
      some (segmentWithChoice ctx choice nextSegment) := by
  refine ⟨?_, rfl⟩
  simp only [handleChoice, chooseHistoryBase]
  rw [if_pos (show i < ctx.history.length - 1 by omega)]


/-- Claim C1 witness: the spec's end-to-end scenario.  Three turns of text
lengths 100, 150 and 60 against a `targetWordCount = 300` chapter, the
second carrying a triggered event and the third an interaction with key
character `K`: after turn 3 the chapter is `completed` and the next chapter
becomes `active`. -/
theorem handleChoice_chapter_completion_witness :
    ((handleChoice e2eCtx2 ['u'] none e2eSeg3).plotBlueprint.getD 0 default).status =
      ChapterStatus.completed ∧
    ((handleChoice e2eCtx2 ['u'] none e2eSeg3).plotBlueprint.getD 1 default).status =
      ChapterStatus.active := by
  have h := handleChoice_chapter_completion e2eCtx2 ['u'] none e2eSeg3 0
    (by decide) (by decide) (by decide)
  exact ⟨h.1, h.2.2.1 (by decide)⟩

/-- Claim C2 witness: turn 1 of the scenario adds 100 to the active
chapter's word count and leaves the second chapter's stats untouched. -/
theorem handleChoice_tracked_stats_witness :
    (statsOrZero ((handleChoice e2eCtx0 ['u'] none e2eSeg1).plotBlueprint.getD
        0 default)).currentWordCount =
      (statsOrZero (e2eCtx0.plotBlueprint.getD 0 default)).currentWordCount +
        e2eSeg1.text.length ∧
    statsOrZero ((handleChoice e2eCtx0 ['u'] none e2eSeg1).plotBlueprint.getD
        1 default) = statsOrZero (e2eCtx0.plotBlueprint.getD 1 default) := by
  have h := handleChoice_tracked_stats e2eCtx0 ['u'] none e2eSeg1 0 (by decide)
  exact ⟨h.1, h.2.2.2 1 (by decide)⟩

/-- Claim C10 witness: advancing from index 0 of the two-segment scenario
history discards the second segment. -/
theorem handleChoice_branching_replay_witness :
    (handleChoice e2eCtx2 ['u'] (some 0) e2eSeg3).history =
      e2eCtx2.history.take 1 ++ [segmentWithChoice e2eCtx2 ['u'] e2eSeg3] :=
  (handleChoice_branching_replay e2eCtx2 ['u'] 0 e2eSeg3 (by decide)).1

/-! ## Regeneration claim theorems -/

/-- Claim C8: regeneration in mode `choices` on a non-empty history replaces
the last segment's choice list, leaves its `text` and `visualPrompt` (and
every other segment) unchanged, and makes the updated segment current. -/
theorem handleRegenerate_choices_frame (ctx : GameCtx) (newSegment : StorySegment)
    (h : ctx.history.length ≠ 0) :
    (handleRegenerate ctx RegenMode.choices newSegment).ctx.history.length =
      ctx.history.length ∧
    ((handleRegenerate ctx RegenMode.choices newSegment).ctx.history.getD
        (ctx.history.length - 1) default).choices = newSegment.choices ∧
    ((handleRegenerate ctx RegenMode.choices newSegment).ctx.history.getD
        (ctx.history.length - 1) default).text =
      (ctx.history.getD (ctx.history.length - 1) default).text ∧
    ((handleRegenerate ctx RegenMode.choices newSegment).ctx.history.getD
        (ctx.history.length - 1) default).visualPrompt =
      (ctx.history.getD (ctx.history.length - 1) default).visualPrompt ∧
    (∀ j, j ≠ ctx.history.length - 1 →
      (handleRegenerate ctx RegenMode.choices newSegment).ctx.history.getD j default =
        ctx.history.getD j default) ∧
    (handleRegenerate ctx RegenMode.choices newSegment).ctx.currentSegment =
      some ((handleRegenerate ctx RegenMode.choices newSegment).ctx.history.getD
        (ctx.history.length - 1) default) := by
  have hlast : ctx.history.length - 1 < ctx.history.length := by omega
  simp only [handleRegenerate]
  rw [if_neg h, if_neg (fun hc => hc.1 rfl)]
  refine ⟨by simp, ?_, ?_, ?_, ?_, rfl⟩
  · rw [listGetD_set_self _ _ hlast]
  · rw [listGetD_set_self _ _ hlast]
  · rw [listGetD_set_self _ _ hlast]
  · intro j hj
    rw [listGetD_set_ne (fun hh => hj hh.symm)]

/-- Claim C8 witness: the frame property instantiated on the concrete
two-segment history. -/
theorem handleRegenerate_choices_frame_witness :
    ((handleRegenerate sampleCtx9 RegenMode.choices sampleRegenSegment).ctx.history.getD
        (sampleCtx9.history.length - 1) default).choices = sampleRegenSegment.choices ∧
    ((handleRegenerate sampleCtx9 RegenMode.choices sampleRegenSegment).ctx.history.getD
        (sampleCtx9.history.length - 1) default).text =
      (sampleCtx9.history.getD (sampleCtx9.history.length - 1) default).text := by
  have h := handleRegenerate_choices_frame sampleCtx9 sampleRegenSegment (by decide)
  exact ⟨h.2.1, h.2.2.1⟩

/-- Claim C9 (counterexample): in mode `choices`, a request targeting the
last segment of a two-segment history whose `causedBy` is empty is *not*
rejected — the backend is called, no error is surfaced, and the context
changes — so the claim is false when quantified over all regeneration
requests. -/
theorem handleRegenerate_choices_no_reject_counterexample :
    2 ≤ sampleCtx9.history.length ∧
    truthy ((sampleCtx9.history.getD (sampleCtx9.history.length - 1) default).causedBy)
      = false ∧
    (handleRegenerate sampleCtx9 RegenMode.choices sampleRegenSegment).backendCalled
      = true ∧
    (handleRegenerate sampleCtx9 RegenMode.choices sampleRegenSegment).errorMsg
      = none ∧
    (handleRegenerate sampleCtx9 RegenMode.choices sampleRegenSegment).ctx ≠
      sampleCtx9 := by
  decide

/-- Claim C9 (amended): in modes `full` and `text` — every mode except
`choices` — a regeneration request targeting a non-opening segment whose
`causedBy` is empty fails with the non-regenerable-node error, makes no
backend call, and leaves the context unchanged. -/
theorem handleRegenerate_nonregenerable (ctx : GameCtx) (mode : RegenMode)
    (newSegment : StorySegment) (hm : mode ≠ RegenMode.choices)
    (hlen : 2 ≤ ctx.history.length)
    (hcb : truthy (ctx.history.getD (ctx.history.length - 1) default).causedBy
      = false) :
    handleRegenerate ctx mode newSegment =
      ⟨ctx, false, some nonRegenerableError⟩ := by
  simp only [handleRegenerate]
  rw [if_neg (by omega), if_pos ⟨hm, by omega, hcb⟩]

/-- Claim C9 witness: the amended rejection applied in mode `full` to the
concrete two-segment history ending in a `causedBy`-less segment. -/
theorem handleRegenerate_nonregenerable_witness :
    handleRegenerate sampleCtx9 RegenMode.full sampleRegenSegment =
      ⟨sampleCtx9, false, some nonRegenerableError⟩ :=
  handleRegenerate_nonregenerable sampleCtx9 RegenMode.full sampleRegenSegment
    (by decide) (by decide) (by decide)


/-! ## Version-switch claim theorems -/

theorem switchIdx_next (cur L : Nat) (hc : cur < L) :
    switchIdx cur L SwitchDirection.next = (cur + 1) % L := by
  unfold switchIdx
  rw [if_pos rfl]
  simp only []
  rw [if_neg (show ¬((cur : Int) + 1 < 0) by omega)]
  by_cases hwrap : ((cur : Int) + 1 ≥ (L : Int))
  · rw [if_pos hwrap]
    have heq : cur + 1 = L := by omega
    rw [heq, Nat.mod_self]
    rfl
  · rw [if_neg hwrap]
    have hlt : cur + 1 < L := by omega
    rw [Nat.mod_eq_of_lt hlt]
    omega

theorem switchVersionSeg_noop (seg : StorySegment) (d : SwitchDirection)
    (h : seg.versions.length < 2) : switchVersionSeg seg d = seg := by
  unfold switchVersionSeg
  rw [if_pos h]

theorem switchVersionSeg_next (seg : StorySegment)
    (h2 : 2 ≤ seg.versions.length)
    (hc : seg.currentVersionIndex.getD 0 < seg.versions.length) :
    (switchVersionSeg seg SwitchDirection.next).versions = seg.versions ∧
    (switchVersionSeg seg SwitchDirection.next).currentVersionIndex =
      some ((seg.currentVersionIndex.getD 0 + 1) % seg.versions.length) := by
  unfold switchVersionSeg
  rw [if_neg (by omega)]
  simp only []
  rw [switchIdx_next (seg.currentVersionIndex.getD 0) seg.versions.length hc]
  have hne : (seg.currentVersionIndex ==
      some ((seg.currentVersionIndex.getD 0 + 1) % seg.versions.length)) = false := by
    cases hv : seg.currentVersionIndex with
    | none => rfl
    | some c =>
      have hcv : c = seg.currentVersionIndex.getD 0 := by rw [hv]; rfl
      rw [beq_eq_false_iff_ne]
      intro hcontra
      have hcc := Option.some.inj hcontra
      simp only [Option.getD_some] at hcc
      by_cases hw : c + 1 = seg.versions.length
      · rw [hw, Nat.mod_self] at hcc
        omega
      · have hlt : c + 1 < seg.versions.length := by omega
        rw [Nat.mod_eq_of_lt hlt] at hcc
        omega
  rw [if_neg (by simp [hne])]
  exact ⟨rfl, rfl⟩

theorem switchVersionSeg_next_iter (seg : StorySegment)
    (h2 : 2 ≤ seg.versions.length)
    (hc : seg.currentVersionIndex.getD 0 < seg.versions.length) :
    ∀ k : Nat,
      ((fun s => switchVersionSeg s SwitchDirection.next)^[k] seg).versions =
        seg.versions ∧
      ((fun s => switchVersionSeg s SwitchDirection.next)^[k] seg).currentVersionIndex.getD 0 =
        (seg.currentVersionIndex.getD 0 + k) % seg.versions.length := by
  intro k
  induction k with
  | zero => simpa using (Nat.mod_eq_of_lt hc).symm
  | succ n ih =>
    obtain ⟨hv, hi⟩ := ih
    rw [Function.iterate_succ_apply']
    have h2' : 2 ≤ ((fun s => switchVersionSeg s SwitchDirection.next)^[n] seg).versions.length := by
      rw [hv]; exact h2
    have hc' : ((fun s => switchVersionSeg s SwitchDirection.next)^[n] seg).currentVersionIndex.getD 0 <
        ((fun s => switchVersionSeg s SwitchDirection.next)^[n] seg).versions.length := by
      rw [hv, hi]
      exact Nat.mod_lt _ (by omega)
    obtain ⟨hv2, hi2⟩ := switchVersionSeg_next _ h2' hc'
    refine ⟨by rw [hv2, hv], ?_⟩
    rw [hi2]
    simp only [Option.getD_some]
    rw [hv, hi]
    have h1L : 1 % seg.versions.length = 1 := Nat.mod_eq_of_lt (by omega)
    conv_rhs => rw [show seg.currentVersionIndex.getD 0 + (n + 1) =
      seg.currentVersionIndex.getD 0 + n + 1 by omega]
    rw [Nat.add_mod (seg.currentVersionIndex.getD 0 + n) 1, h1L]

/-- Claim C7: `switchVersion` is a no-op when fewer than two versions exist,
and applying it with direction `next` exactly `versions.length` times
returns the active index to its original value, for every valid starting
active index (an out-of-range index can only occur together with fewer than
two versions, where every call is a no-op). -/
theorem switchVersion_next_cycle (seg : StorySegment)
    (h : seg.currentVersionIndex.getD 0 < seg.versions.length ∨
      seg.versions.length < 2) :
    (seg.versions.length < 2 → ∀ d, switchVersionSeg seg d = seg) ∧
    ((fun s => switchVersionSeg s SwitchDirection.next)^[seg.versions.length]
        seg).currentVersionIndex.getD 0 = seg.currentVersionIndex.getD 0 := by
  constructor
  · intro hlt d
    exact switchVersionSeg_noop seg d hlt
  · by_cases h2 : 2 ≤ seg.versions.length
    · have hc : seg.currentVersionIndex.getD 0 < seg.versions.length := by
        cases h with
        | inl hl => exact hl
        | inr hr => omega
      have hit := (switchVersionSeg_next_iter seg h2 hc seg.versions.length).2
      rw [hit, Nat.add_mod_right, Nat.mod_eq_of_lt hc]
    · have hlt : seg.versions.length < 2 := by omega
      have hfix : (fun s => switchVersionSeg s SwitchDirection.next) seg = seg :=
        switchVersionSeg_noop seg SwitchDirection.next hlt
      have hfix2 := Function.iterate_fixed
        (f := fun s => switchVersionSeg s SwitchDirection.next) hfix
        seg.versions.length
      rw [hfix2]

/-- Claim C7 witness: cycling `next` three times through the concrete
three-version segment restores its active index. -/
theorem switchVersion_next_cycle_witness :
    ((fun s => switchVersionSeg s SwitchDirection.next)^[sampleVersionedSeg.versions.length]
        sampleVersionedSeg).currentVersionIndex.getD 0 =
      sampleVersionedSeg.currentVersionIndex.getD 0 :=
  (switchVersion_next_cycle sampleVersionedSeg (by decide)).2

/-! ## Checkpoint-deduplication claim theorem -/

/-- Claim C6: running the auto-checkpoint insertion twice for two records
sharing the same `(sessionId, storyId)` pair, starting from a store holding
none for that pair, leaves exactly one stored record for the pair — the
second insertion is skipped by the existing-checkpoint check. -/
theorem addAutoSaveDedup_twice (saves : List SavedGame) (s1 s2 : SavedGame)
    (hsid : s1.sessionId = s2.sessionId) (hst : s1.storyId = s2.storyId)
    (h0 : countSavesFor saves s2.sessionId s2.storyId = 0) :
    countSavesFor (addAutoSaveDedup (addAutoSaveDedup saves s1) s2)
      s2.sessionId s2.storyId = 1 := by
  unfold countSavesFor at h0
  have hany1 : (saves.any fun s =>
      s.storyId == s1.storyId && s.sessionId == s1.sessionId) = false := by
    rw [List.any_eq_false]
    intro s hs
    have hn : ¬((s.sessionId == s2.sessionId && s.storyId == s2.storyId) = true) :=
      List.countP_eq_zero.mp h0 s hs
    rw [hsid, hst]
    intro hcontra
    apply hn
    rw [Bool.and_eq_true] at hcontra ⊢
    exact ⟨hcontra.2, hcontra.1⟩
  have hinner : addAutoSaveDedup saves s1 = s1 :: saves := by
    unfold addAutoSaveDedup
    rw [if_neg (by rw [hany1]; exact Bool.false_ne_true)]
  have houter : addAutoSaveDedup (s1 :: saves) s2 = s1 :: saves := by
    unfold addAutoSaveDedup
    rw [if_pos (show ((s1 :: saves).any fun s =>
        s.storyId == s2.storyId && s.sessionId == s2.sessionId) = true by
      simp [List.any_cons, hsid, hst])]
  rw [hinner, houter]
  unfold countSavesFor
  rw [List.countP_cons, h0,
    if_pos (show (s1.sessionId == s2.sessionId && s1.storyId == s2.storyId) = true by
      simp [hsid, hst])]

/-- Claim C6 witness: inserting two distinct checkpoint records carrying the
same `(sessionId, storyId)` pair into an empty store leaves exactly one. -/
theorem addAutoSaveDedup_twice_witness :
    countSavesFor (addAutoSaveDedup (addAutoSaveDedup [] (sampleSave 'p'))
      (sampleSave 'q')) (sampleSave 'q').sessionId (sampleSave 'q').storyId = 1 :=
  addAutoSaveDedup_twice [] (sampleSave 'p') (sampleSave 'q') rfl rfl (by decide)

end Rekallhalo
